import Mathlib

/-!
Shallow embedding of the recipe-app-api core (src/app/recipe/serializers.py,
src/app/recipe/views.py) together with the parts of `core.models` and the
REST-framework boundary the views rely on, and proofs of the spec claims
about it.

Entities are rows with explicit integer ids; the persistent store is a
record of row lists plus fresh-id counters.  Users are identified by a
natural number (the authentication layer hands the views an
already-authenticated user, spec §6).
-/

/-- A stored `Tag` row: `core.models.Tag` has an owning user and a name. -/
structure TagRow where
  id : Nat
  user : Nat
  name : String
deriving Repr, DecidableEq

/-- A stored `Ingredient` row: structurally identical to `Tag` (spec §3). -/
structure IngredientRow where
  id : Nat
  user : Nat
  name : String
deriving Repr, DecidableEq

/-- A stored `Recipe` row.  `price` is kept in cents (fixed-point decimal with
2 places, spec §3); `tags`/`ingredients` hold the ids in the many-to-many
relation sets; `image` is the stored reference location, when any. -/
structure RecipeRow where
  id : Nat
  user : Nat
  title : String
  time_minutes : Nat
  price : Nat
  description : String
  link : String
  tags : List Nat
  ingredients : List Nat
  image : Option String
deriving Repr, DecidableEq

/-- The persistent entity store. -/
structure Store where
  recipes : List RecipeRow
  tags : List TagRow
  ingredients : List IngredientRow
  nextRecipeId : Nat
  nextTagId : Nat
  nextIngredientId : Nat
deriving Repr, DecidableEq

/-- A bare relation descriptor in a write payload: just a `name`
(`TagSerializer` write shape, `{name}` with read-only `id`). -/
structure NameDescriptor where
  name : String
deriving Repr, DecidableEq

/-- A recipe write payload as it arrives at the serializer, before field
filtering.  `none` on a field means the key is absent from the payload.
`user`, `id` and `ingredients` can be present in a request, but none of them
is a writable declared field of `RecipeSerializer` /
`RecipeDetailSerializer` (`fields = ["id", "title", "time_minutes", "price",
"link", "tags"]` plus `description`, `read_only_fields = ["id"]`). -/
structure RecipePayload where
  id : Option Nat := none
  user : Option Nat := none
  title : Option String := none
  time_minutes : Option Nat := none
  price : Option Nat := none
  description : Option String := none
  link : Option String := none
  tags : Option (List NameDescriptor) := none
  ingredients : Option (List NameDescriptor) := none
deriving Repr, DecidableEq

/-- What the serializer's `create`/`update` receive as `validated_data`:
only declared, non-read-only fields survive deserialization, so `id`,
`user` and `ingredients` have no slot here at all. -/
structure ValidatedData where
  title : Option String := none
  time_minutes : Option Nat := none
  price : Option Nat := none
  description : Option String := none
  link : Option String := none
  tags : Option (List NameDescriptor) := none
deriving Repr, DecidableEq

/-- Deserialization by `RecipeDetailSerializer`: keep exactly the declared
writable fields (`title`, `time_minutes`, `price`, `link`, `tags`,
`description`); `id` is read-only, and `user` / `ingredients` are not
declared on the serializer, so they are dropped. -/
def validateDetail (p : RecipePayload) : ValidatedData :=
  { title := p.title
    time_minutes := p.time_minutes
    price := p.price
    description := p.description
    link := p.link
    tags := p.tags }

/-- Django `Tag.objects.get_or_create(user=auth_user, name=...)`: look the
row up by `(user, name)`; return it when found, otherwise insert a fresh row
and return that. -/
def getOrCreateTag (s : Store) (authUser : Nat) (n : String) :
    TagRow × Store :=
  match s.tags.find? (fun t => t.user == authUser && t.name == n) with
  | some t => (t, s)
  | none =>
    let t : TagRow := ⟨s.nextTagId, authUser, n⟩
    (t, { s with tags := s.tags ++ [t], nextTagId := s.nextTagId + 1 })

/-- Django m2m `add`: attaching an already-attached id is a no-op. -/
def m2mAdd (rel : List Nat) (i : Nat) : List Nat :=
  if rel.contains i then rel else rel ++ [i]

/-- `RecipeSerializer._get_or_create_tags` (serializers.py:29-37): for each
descriptor, get-or-create the tag for the authenticated user and add it to
the instance's tag relation set. -/
def get_or_create_tags (s : Store) (authUser : Nat)
    (tagsData : List NameDescriptor) (rel : List Nat) :
    List Nat × Store :=
  match tagsData with
  | [] => (rel, s)
  | d :: rest =>
    let (t, s1) := getOrCreateTag s authUser d.name
    get_or_create_tags s1 authUser rest (m2mAdd rel t.id)

/-- `instance.save()`: write the mutated row back over the stored row with
the same id. -/
def saveRecipe (s : Store) (r : RecipeRow) : Store :=
  { s with recipes := s.recipes.map (fun x => if x.id == r.id then r else x) }

/-- The `for attr, value in validated_data.items(): setattr(instance, attr,
value)` loop of `RecipeSerializer.update` (serializers.py:55-56), applied
after `tags` has been popped: each remaining present key overwrites the
matching attribute. -/
def applyScalars (r : RecipeRow) (vd : ValidatedData) : RecipeRow :=
  { r with
    title := vd.title.getD r.title
    time_minutes := vd.time_minutes.getD r.time_minutes
    price := vd.price.getD r.price
    description := vd.description.getD r.description
    link := vd.link.getD r.link }

/-- `RecipeSerializer.update` (serializers.py:47-59).  The source reads
`tags_data = validated_data.pop("tags", [])` — the default is the empty
list, not `None`, so `tags_data` is always a list and the
`if tags_data is not None:` guard always passes; the `none` branch below is
the guard's (unreachable) skip branch.  When the guard passes the instance's
tag set is cleared and rebuilt from the popped list. -/
def recipeSerializerUpdate (s : Store) (authUser : Nat) (inst : RecipeRow)
    (vd : ValidatedData) : RecipeRow × Store :=
  let tagsData : Option (List NameDescriptor) := some (vd.tags.getD [])
  let (rel, s1) :=
    match tagsData with
    | some td => get_or_create_tags s authUser td []
    | none => (inst.tags, s)
  let inst1 := applyScalars { inst with tags := rel } vd
  (inst1, saveRecipe s1 inst1)

/-- `RecipeSerializer.create` (serializers.py:39-45) as invoked through
`RecipeViewSet.perform_create`'s `serializer.save(user=self.request.user)`
(views.py:44-46): pop `tags`, create the bare recipe row owned by the
authenticated caller with a store-issued fresh id, then reconcile and attach
the popped descriptors. -/
def recipeSerializerCreate (s : Store) (authUser : Nat)
    (vd : ValidatedData) : RecipeRow × Store :=
  let tagsData := vd.tags.getD []
  let base : RecipeRow :=
    { id := s.nextRecipeId
      user := authUser
      title := vd.title.getD ""
      time_minutes := vd.time_minutes.getD 0
      price := vd.price.getD 0
      description := vd.description.getD ""
      link := vd.link.getD ""
      tags := []
      ingredients := []
      image := none }
  let s1 := { s with recipes := s.recipes ++ [base],
                     nextRecipeId := s.nextRecipeId + 1 }
  let (rel, s2) := get_or_create_tags s1 authUser tagsData []
  let r := { base with tags := rel }
  (r, saveRecipe s2 r)

/-- The recipe create endpoint: deserialize the payload, then
`perform_create` saves with the authenticated user stamped in. -/
def performCreate (s : Store) (authUser : Nat) (p : RecipePayload) :
    RecipeRow × Store :=
  recipeSerializerCreate s authUser (validateDetail p)

/-- Insert into a list kept sorted descending under the key order `le`
(the new element goes before the first element it is ≥ of). -/
def insertDescBy (le : α → α → Bool) (a : α) : List α → List α
  | [] => [a]
  | x :: xs => if le x a then a :: x :: xs else x :: insertDescBy le a xs

/-- Sort a list descending under the key order `le` (insertion sort); embeds
Django's `order_by("-key")`. -/
def orderByDesc (le : α → α → Bool) (l : List α) : List α :=
  l.foldr (insertDescBy le) []

/-- `RecipeViewSet.get_queryset` (views.py:25-27):
`self.queryset.filter(user=self.request.user).order_by("-id")`. -/
def recipeGetQueryset (s : Store) (requestUser : Nat) : List RecipeRow :=
  orderByDesc (fun x y => x.id ≤ y.id)
    (s.recipes.filter (fun r => r.user == requestUser))

/-- `BaseRecipeAttrViewSet.get_queryset` (views.py:79-81) as inherited by
`TagViewSet`: `self.queryset.filter(user=self.request.user)
.order_by("-name")`. -/
def tagGetQueryset (s : Store) (requestUser : Nat) : List TagRow :=
  orderByDesc (fun x y => x.name ≤ y.name)
    (s.tags.filter (fun t => t.user == requestUser))

/-- `BaseRecipeAttrViewSet.get_queryset` as inherited by
`IngredientViewSet`. -/
def ingredientGetQueryset (s : Store) (requestUser : Nat) :
    List IngredientRow :=
  orderByDesc (fun x y => x.name ≤ y.name)
    (s.ingredients.filter (fun i => i.user == requestUser))

/-- REST-framework `get_object` on a detail route: look the pk up *inside
the view's queryset*; a miss (including a row owned by someone else, which
`get_queryset` has already filtered out) raises `Http404`. -/
def recipeGetObject (s : Store) (requestUser : Nat) (pk : Nat) :
    Option RecipeRow :=
  (recipeGetQueryset s requestUser).find? (fun r => r.id == pk)

/-- Outcome of a detail-route operation, as the handler resolves it at the
boundary (spec §7): REST framework would answer 403 Forbidden only from a
permission check, 404 from a queryset miss. -/
inductive ApiOutcome (α : Type) where
  | ok : α → ApiOutcome α
  | notFound : ApiOutcome α
  | forbidden : ApiOutcome α
  | validationError : ApiOutcome α
deriving Repr, DecidableEq

/-- `DELETE` on a recipe detail route (`DestroyModelMixin` over
`RecipeViewSet.get_queryset`): 404 when the pk is not in the caller's scoped
queryset, otherwise delete the row. -/
def recipeDestroy (s : Store) (requestUser : Nat) (pk : Nat) :
    ApiOutcome Unit × Store :=
  match recipeGetObject s requestUser pk with
  | some r =>
    (.ok (), { s with recipes := s.recipes.filter (fun x => x.id != r.id) })
  | none => (.notFound, s)

/-- `PATCH`/`PUT` on a recipe detail route (`UpdateModelMixin` over
`RecipeViewSet.get_queryset` with `RecipeDetailSerializer`): 404 when the pk
is not in the caller's scoped queryset, otherwise deserialize and run
`RecipeSerializer.update`. -/
def recipeUpdateOp (s : Store) (requestUser : Nat) (pk : Nat)
    (p : RecipePayload) : ApiOutcome RecipeRow × Store :=
  match recipeGetObject s requestUser pk with
  | some r =>
    let (r1, s1) := recipeSerializerUpdate s requestUser r (validateDetail p)
    (.ok r1, s1)
  | none => (.notFound, s)

/-- The serializer classes `RecipeViewSet.get_serializer_class` can pick
between (views.py:29-36). -/
inductive SerializerClass where
  | recipeSerializer
  | recipeDetailSerializer
  | recipeImageSerializer
deriving Repr, DecidableEq

/-- `RecipeViewSet.get_serializer_class` (views.py:29-36): the `list` action
uses `RecipeSerializer`, `upload_image` uses `RecipeImageSerializer`, every
other action falls through to the class default
`serializers.RecipeDetailSerializer` (views.py:23). -/
def get_serializer_class (action : String) : SerializerClass :=
  if action == "list" then .recipeSerializer
  else if action == "upload_image" then .recipeImageSerializer
  else .recipeDetailSerializer

/-- `RecipeSerializer.Meta.fields` (serializers.py:26). -/
def recipeSerializerFields : List String :=
  ["id", "title", "time_minutes", "price", "link", "tags"]

/-- `RecipeDetailSerializer.Meta.fields` (serializers.py:68):
`RecipeSerializer.Meta.fields + ["description"]`. -/
def recipeDetailSerializerFields : List String :=
  recipeSerializerFields ++ ["description"]

/-- Response shape of each serializer class as a field-name list.  The image
serializer is not among the source files; from the spec it exposes the
single file field (plus the row identity). -/
def serializerFields : SerializerClass → List String
  | .recipeSerializer => recipeSerializerFields
  | .recipeDetailSerializer => recipeDetailSerializerFields
  | .recipeImageSerializer => ["id", "image"]

/-- A file arriving on the upload endpoint: an opaque name plus whether the
content is a valid image (what an `ImageField`'s validation checks). -/
structure FilePayload where
  fileName : String
  isImage : Bool
deriving Repr, DecidableEq

/-- Modelled from the spec: `RecipeImageSerializer` is referenced by
`RecipeViewSet.get_serializer_class` and used in `upload_image`, but its
definition is not among the source files.  Per spec §4.3 the operation
"accepts exactly one file field; rejects non-image payloads with a
validation error" — so the serializer declares exactly one writable file
field, `image`, and `is_valid()` holds iff the field is present and its
content is an image. -/
def recipeImageSerializerIsValid (image : Option FilePayload) : Bool :=
  match image with
  | some f => f.isImage
  | none => false

/-- Modelled from the spec: the file-storage collaborator (spec §6) maps a
saved upload to "a stable reference/location string"; the serializer's
`data` then carries that stored reference location back to the caller. -/
def storedLocation (pk : Nat) (f : FilePayload) : String :=
  "uploads/recipe/" ++ toString pk ++ "/" ++ f.fileName

/-- `RecipeViewSet.upload_image` (views.py:48-67): resolve the recipe via
`get_object` (scoped queryset), validate the request data with the image
serializer; on success save the image onto the recipe row and answer 200
with the serializer data (the stored reference location), otherwise answer
400 with the errors and store nothing.  The payload carries only the one
file field; no other recipe attribute is read or written. -/
def upload_image (s : Store) (requestUser : Nat) (pk : Nat)
    (image : Option FilePayload) : ApiOutcome String × Store :=
  match recipeGetObject s requestUser pk with
  | none => (.notFound, s)
  | some r =>
    if recipeImageSerializerIsValid image then
      match image with
      | some f =>
        let loc := storedLocation pk f
        (.ok loc, saveRecipe s { r with image := some loc })
      | none => (.validationError, s)
    else
      (.validationError, s)

/-! ### Concrete fixtures (used by closed theorems and witnesses) -/

/-- A stored tag owned by user 1 (the "Breakfast" tag of the update tests). -/
def demoTag : TagRow := { id := 10, user := 1, name := "Breakfast" }

/-- A stored recipe owned by user 1 with `demoTag` attached. -/
def demoRecipe : RecipeRow :=
  { id := 1, user := 1, title := "Sample recipe", time_minutes := 10
    price := 525, description := "Sample description"
    link := "https://sample.com/sample-recipe"
    tags := [10], ingredients := [], image := none }

/-- A stored recipe owned by user 2. -/
def otherRecipe : RecipeRow :=
  { id := 2, user := 2, title := "Other recipe", time_minutes := 5
    price := 100, description := "", link := ""
    tags := [], ingredients := [], image := none }

/-- A small store: user 1 owns `demoRecipe` and `demoTag`, user 2 owns
`otherRecipe`. -/
def demoStore : Store :=
  { recipes := [demoRecipe, otherRecipe], tags := [demoTag]
    ingredients := [], nextRecipeId := 3, nextTagId := 11
    nextIngredientId := 1 }

/-- The empty store. -/
def emptyStore : Store :=
  { recipes := [], tags := [], ingredients := []
    nextRecipeId := 1, nextTagId := 1, nextIngredientId := 1 }

/-- The create payload of the repository's own
`test_create_recipe_with_new_ingredients` (test_recipe_api.py:304-310):
title, time, price plus two ingredient descriptors. -/
def c6Payload : RecipePayload :=
  { title := some "Sample recipe", time_minutes := some 10
    price := some 525
    ingredients := some [⟨"Ingredient1"⟩, ⟨"Ingredient2"⟩] }

/-- A stored tag owned by user 2. -/
def otherTag : TagRow := { id := 20, user := 2, name := "Fruity" }

/-- A stored ingredient owned by user 2. -/
def otherIngredient : IngredientRow :=
  { id := 30, user := 2, name := "Vinegar" }

/-! ### Helper lemmas -/

theorem mem_insertDescBy (le : α → α → Bool) (a x : α) (l : List α) :
    x ∈ insertDescBy le a l ↔ x = a ∨ x ∈ l := by
  induction l with
  | nil => simp [insertDescBy]
  | cons y ys ih =>
    by_cases h : le y a = true
    · simp [insertDescBy, h]
    · simp only [insertDescBy, if_neg h, List.mem_cons, ih]
      tauto

theorem mem_orderByDesc (le : α → α → Bool) (x : α) (l : List α) :
    x ∈ orderByDesc le l ↔ x ∈ l := by
  induction l with
  | nil => simp [orderByDesc]
  | cons y ys ih =>
    simp only [orderByDesc, List.foldr_cons, mem_insertDescBy, List.mem_cons]
    rw [show List.foldr (insertDescBy le) [] ys = orderByDesc le ys from rfl]
      at *
    rw [ih]

theorem mem_recipeGetQueryset (s : Store) (u : Nat) (r : RecipeRow) :
    r ∈ recipeGetQueryset s u ↔ r ∈ s.recipes ∧ r.user = u := by
  unfold recipeGetQueryset
  rw [mem_orderByDesc, List.mem_filter]
  simp

theorem mem_tagGetQueryset (s : Store) (u : Nat) (t : TagRow) :
    t ∈ tagGetQueryset s u ↔ t ∈ s.tags ∧ t.user = u := by
  unfold tagGetQueryset
  rw [mem_orderByDesc, List.mem_filter]
  simp

theorem mem_ingredientGetQueryset (s : Store) (u : Nat) (i : IngredientRow) :
    i ∈ ingredientGetQueryset s u ↔ i ∈ s.ingredients ∧ i.user = u := by
  unfold ingredientGetQueryset
  rw [mem_orderByDesc, List.mem_filter]
  simp

/-- Number of stored tag rows for a given `(owner, name)` pair. -/
def tagCount (s : Store) (u : Nat) (n : String) : Nat :=
  (s.tags.filter (fun t => t.user == u && t.name == n)).length

theorem find?_append_of_none {p : α → Bool} {l1 : List α} (l2 : List α)
    (h : l1.find? p = none) : (l1 ++ l2).find? p = l2.find? p := by
  induction l1 with
  | nil => rfl
  | cons x xs ih =>
    cases hx : p x with
    | true => simp [List.find?_cons, hx] at h
    | false =>
      simp only [List.find?_cons, hx] at h
      simp only [List.cons_append, List.find?_cons, hx]
      exact ih h

theorem applyScalars_tags (r : RecipeRow) (vd : ValidatedData) :
    (applyScalars r vd).tags = r.tags := rfl

theorem applyScalars_user (r : RecipeRow) (vd : ValidatedData) :
    (applyScalars r vd).user = r.user := rfl

theorem validateDetail_tags (p : RecipePayload) :
    (validateDetail p).tags = p.tags := rfl

theorem recipeSerializerUpdate_fst_tags (s : Store) (u : Nat)
    (inst : RecipeRow) (vd : ValidatedData) :
    (recipeSerializerUpdate s u inst vd).1.tags
      = (get_or_create_tags s u (vd.tags.getD []) []).1 := rfl

theorem recipeSerializerUpdate_fst_user (s : Store) (u : Nat)
    (inst : RecipeRow) (vd : ValidatedData) :
    (recipeSerializerUpdate s u inst vd).1.user = inst.user := rfl

/-! ### Claims -/

/-- C1: the claim says an update whose payload has no `tags` key leaves the
tag relation set untouched.  The code does not: `update` pops `"tags"` with
default `[]` (not `None`), so the `is not None` guard always passes and the
instance's tags are cleared and rebuilt from the empty default.  On the
concrete store where recipe 1 (owner 1) carries tag 10, a PATCH of the title
alone detaches the tag: the returned row and the stored row both end with an
empty tag set, though the prior set was `[10]`. -/
theorem C1_update_without_tags_key_clears_tags :
    demoRecipe.tags = [10]
    ∧ ({ title := some "New title" } : RecipePayload).tags = none
    ∧ (recipeUpdateOp demoStore 1 1 { title := some "New title" }).1
        = .ok { demoRecipe with title := "New title", tags := [] }
    ∧ ((recipeUpdateOp demoStore 1 1
          { title := some "New title" }).2.recipes.find?
            (fun r => r.id == 1)).map RecipeRow.tags = some [] := by
  refine ⟨rfl, rfl, rfl, rfl⟩

/-- C2: an update whose payload carries a `tags` key (possibly the empty
list) clears the prior relation set and rebuilds it as exactly the
reconciliation of the new descriptor list from an empty relation — the
result does not depend on the prior set, and `{"tags": []}` always yields
zero attached tags. -/
theorem C2_update_with_tags_key_replaces (s : Store) (u pk : Nat)
    (p : RecipePayload) (td : List NameDescriptor) (r1 : RecipeRow)
    (htags : p.tags = some td)
    (hok : (recipeUpdateOp s u pk p).1 = .ok r1) :
    r1.tags = (get_or_create_tags s u td []).1
    ∧ (td = [] → r1.tags = []) := by
  unfold recipeUpdateOp at hok
  cases hget : recipeGetObject s u pk with
  | none => rw [hget] at hok; exact absurd hok (by simp)
  | some r =>
    rw [hget] at hok
    simp only [ApiOutcome.ok.injEq] at hok
    subst hok
    rw [recipeSerializerUpdate_fst_tags, validateDetail_tags, htags]
    refine ⟨rfl, fun h => ?_⟩
    subst h
    rfl

/-- Witness for C2 at the concrete store: patching recipe 1 with
`{"tags": []}` leaves zero tags even though it carried tag 10. -/
theorem C2_update_with_tags_key_replaces_witness :
    ({ demoRecipe with tags := ([] : List Nat) } : RecipeRow).tags
      = (get_or_create_tags demoStore 1 [] []).1
    ∧ (([] : List NameDescriptor) = []
        → ({ demoRecipe with tags := ([] : List Nat) } : RecipeRow).tags
            = []) :=
  C2_update_with_tags_key_replaces demoStore 1 1 { tags := some [] } []
    { demoRecipe with tags := [] } rfl (by decide)

/-- C3: the reconciliation core `Tag.objects.get_or_create(user=auth_user,
name=...)` is idempotent per `(owner, name)`: a second reconciliation of the
same descriptor returns the row the first one produced, changes nothing in
the store, and the store never holds more rows for that pair than
`max (prior count) 1` — so reconciling a descriptor twice, across any two
recipe create/update operations of the same owner, never produces two rows,
and the second `_get_or_create_tags` pass attaches exactly the id the first
pass produced. -/
theorem C3_get_or_create_idempotent (s : Store) (u : Nat) (n : String) :
    (getOrCreateTag (getOrCreateTag s u n).2 u n).1 = (getOrCreateTag s u n).1
    ∧ (getOrCreateTag (getOrCreateTag s u n).2 u n).2
        = (getOrCreateTag s u n).2
    ∧ tagCount (getOrCreateTag s u n).2 u n = max (tagCount s u n) 1
    ∧ ∀ rel : List Nat,
        (get_or_create_tags (getOrCreateTag s u n).2 u [⟨n⟩] rel).1
          = m2mAdd rel (getOrCreateTag s u n).1.id := by
  cases hfind : s.tags.find? (fun t => t.user == u && t.name == n) with
  | some t =>
    have hs1 : getOrCreateTag s u n = (t, s) := by
      unfold getOrCreateTag; rw [hfind]
    have hmem := List.mem_of_find?_eq_some hfind
    have hp := List.find?_some hfind
    have hpos : 0 < tagCount s u n := by
      unfold tagCount
      rw [← List.countP_eq_length_filter]
      exact List.countP_pos_iff.mpr ⟨t, hmem, hp⟩
    rw [hs1]
    refine ⟨?_, ?_, ?_, ?_⟩
    · rw [hs1]
    · rw [hs1]
    · exact (Nat.max_eq_left hpos).symm
    · intro rel
      unfold get_or_create_tags
      rw [hs1]
      rfl
  | none =>
    have hs1 : getOrCreateTag s u n
        = (⟨s.nextTagId, u, n⟩,
           { s with tags := s.tags ++ [⟨s.nextTagId, u, n⟩],
                    nextTagId := s.nextTagId + 1 }) := by
      unfold getOrCreateTag; rw [hfind]
    have hfind2 : (s.tags ++ [(⟨s.nextTagId, u, n⟩ : TagRow)]).find?
        (fun t => t.user == u && t.name == n)
        = some ⟨s.nextTagId, u, n⟩ := by
      rw [find?_append_of_none _ hfind]
      simp [List.find?_cons]
    have hzero : tagCount s u n = 0 := by
      unfold tagCount
      rw [List.length_eq_zero, List.filter_eq_nil_iff]
      intro t ht
      exact List.find?_eq_none.mp hfind t ht
    have hs2 : getOrCreateTag (getOrCreateTag s u n).2 u n
        = ((⟨s.nextTagId, u, n⟩ : TagRow), (getOrCreateTag s u n).2) := by
      rw [hs1]
      unfold getOrCreateTag
      rw [hfind2]
    refine ⟨?_, ?_, ?_, ?_⟩
    · rw [hs2, hs1]
    · rw [hs2]
    · rw [hs1, hzero]
      unfold tagCount
      simp only [List.filter_append]
      rw [show (s.tags.filter (fun t => t.user == u && t.name == n)) = []
            from List.filter_eq_nil_iff.mpr
              (fun t ht => List.find?_eq_none.mp hfind t ht)]
      simp [List.filter]
    · intro rel
      unfold get_or_create_tags
      rw [hs2, hs1]
      rfl

/-- C6: the claim (and the repository's own tests) say a recipe write
payload carrying an `ingredients` key is reconciled like tags.  It is not:
`RecipeSerializer` declares no `ingredients` field, so deserialization drops
the key entirely and the created recipe ends with zero attached ingredients
and the store with zero ingredient rows — here at the very payload of
`test_create_recipe_with_new_ingredients`. -/
theorem C6_ingredients_key_dropped :
    (performCreate emptyStore 1 c6Payload).1.ingredients = []
    ∧ (performCreate emptyStore 1 c6Payload).2.ingredients = []
    ∧ validateDetail c6Payload
        = validateDetail { c6Payload with ingredients := none } := by
  refine ⟨rfl, rfl, rfl⟩

/-- C9: the list action serializes with `RecipeSerializer` (no
`description`), every other CRUD action with `RecipeDetailSerializer`
(which has it); the detail field set minus `description` is exactly the
list field set, so the two shapes agree on `id`, `title`, `time_minutes`,
`price`, `link`, `tags`. -/
theorem C9_list_detail_field_shapes :
    get_serializer_class "list" = .recipeSerializer
    ∧ get_serializer_class "retrieve" = .recipeDetailSerializer
    ∧ get_serializer_class "create" = .recipeDetailSerializer
    ∧ get_serializer_class "update" = .recipeDetailSerializer
    ∧ get_serializer_class "partial_update" = .recipeDetailSerializer
    ∧ "description" ∉ serializerFields (get_serializer_class "list")
    ∧ "description" ∈ serializerFields (get_serializer_class "retrieve")
    ∧ (serializerFields .recipeDetailSerializer).filter
        (fun f => f != "description") = serializerFields .recipeSerializer
    ∧ serializerFields .recipeSerializer
        = ["id", "title", "time_minutes", "price", "link", "tags"] := by
  decide

/-- C4: cross-owner isolation.  A row owned by A is never a member of B's
scoped queryset (so no list/get/update/delete of B can reach it), every
member of B's queryset is owned by B, and adding an A-owned row to the store
leaves B's list results and B's object lookups — hence B's get, update and
delete — unchanged, for recipes, tags and ingredients alike. -/
theorem C4_cross_owner_isolation (s : Store) (a b : Nat)
    (r : RecipeRow) (t : TagRow) (i : IngredientRow) (hab : a ≠ b)
    (hr : r.user = a) (ht : t.user = a) (hi : i.user = a) :
    r ∉ recipeGetQueryset s b
    ∧ t ∉ tagGetQueryset s b
    ∧ i ∉ ingredientGetQueryset s b
    ∧ (∀ x ∈ recipeGetQueryset s b, x.user = b)
    ∧ recipeGetQueryset { s with recipes := s.recipes ++ [r] } b
        = recipeGetQueryset s b
    ∧ tagGetQueryset { s with tags := s.tags ++ [t] } b = tagGetQueryset s b
    ∧ ingredientGetQueryset { s with ingredients := s.ingredients ++ [i] } b
        = ingredientGetQueryset s b
    ∧ ∀ pk, recipeGetObject { s with recipes := s.recipes ++ [r] } b pk
        = recipeGetObject s b pk := by
  have hrb : (r.user == b) = false := by simp [hr]; exact hab
  have htb : (t.user == b) = false := by simp [ht]; exact hab
  have hib : (i.user == b) = false := by simp [hi]; exact hab
  have hq : recipeGetQueryset { s with recipes := s.recipes ++ [r] } b
      = recipeGetQueryset s b := by
    unfold recipeGetQueryset
    simp [List.filter_append, List.filter, hrb]
  refine ⟨?_, ?_, ?_, ?_, hq, ?_, ?_, fun pk => ?_⟩
  · intro hmem
    rw [mem_recipeGetQueryset] at hmem
    exact hab (hr ▸ hmem.2)
  · intro hmem
    rw [mem_tagGetQueryset] at hmem
    exact hab (ht ▸ hmem.2)
  · intro hmem
    rw [mem_ingredientGetQueryset] at hmem
    exact hab (hi ▸ hmem.2)
  · intro x hx
    exact ((mem_recipeGetQueryset s b x).mp hx).2
  · unfold tagGetQueryset
    simp [List.filter_append, List.filter, htb]
  · unfold ingredientGetQueryset
    simp [List.filter_append, List.filter, hib]
  · unfold recipeGetObject
    rw [hq]

/-- Witness for C4 on the concrete store: user 2's rows are invisible to
user 1. -/
theorem C4_cross_owner_isolation_witness :
    otherRecipe ∉ recipeGetQueryset demoStore 1
    ∧ otherTag ∉ tagGetQueryset demoStore 1
    ∧ otherIngredient ∉ ingredientGetQueryset demoStore 1
    ∧ (∀ x ∈ recipeGetQueryset demoStore 1, x.user = 1)
    ∧ recipeGetQueryset
        { demoStore with recipes := demoStore.recipes ++ [otherRecipe] } 1
        = recipeGetQueryset demoStore 1
    ∧ tagGetQueryset { demoStore with tags := demoStore.tags ++ [otherTag] } 1
        = tagGetQueryset demoStore 1
    ∧ ingredientGetQueryset
        { demoStore with
            ingredients := demoStore.ingredients ++ [otherIngredient] } 1
        = ingredientGetQueryset demoStore 1
    ∧ ∀ pk, recipeGetObject
        { demoStore with recipes := demoStore.recipes ++ [otherRecipe] } 1 pk
        = recipeGetObject demoStore 1 pk :=
  C4_cross_owner_isolation demoStore 2 1 otherRecipe otherTag otherIngredient
    (by decide) rfl rfl rfl

/-- C5: a delete or update against a recipe id that exists but is owned by a
different user resolves to NotFound — never Forbidden — and returns the
store unchanged (the stored row is intact). -/
theorem C5_cross_owner_write_not_found (s : Store) (a b pk : Nat)
    (p : RecipePayload) (hab : a ≠ b)
    (_hex : ∃ r ∈ s.recipes, r.id = pk ∧ r.user = a)
    (hall : ∀ x ∈ s.recipes, x.id = pk → x.user = a) :
    recipeDestroy s b pk = (.notFound, s)
    ∧ recipeUpdateOp s b pk p = (.notFound, s)
    ∧ (recipeDestroy s b pk).1 ≠ .forbidden
    ∧ (recipeUpdateOp s b pk p).1 ≠ .forbidden := by
  have hnone : recipeGetObject s b pk = none := by
    cases hres : recipeGetObject s b pk with
    | none => rfl
    | some r =>
      have hres' : (recipeGetQueryset s b).find? (fun x => x.id == pk)
          = some r := hres
      have hmem := List.mem_of_find?_eq_some hres'
      have hpk := List.find?_some hres'
      rw [mem_recipeGetQueryset] at hmem
      have hra : r.user = a := hall r hmem.1 (by simpa using hpk)
      exact absurd (hra ▸ hmem.2) hab
  have hd : recipeDestroy s b pk = (.notFound, s) := by
    unfold recipeDestroy; rw [hnone]
  have hu : recipeUpdateOp s b pk p = (.notFound, s) := by
    unfold recipeUpdateOp; rw [hnone]
  refine ⟨hd, hu, ?_, ?_⟩
  · rw [hd]; simp
  · rw [hu]; simp

/-- Witness for C5: user 1 deleting or patching user 2's recipe (id 2) gets
NotFound and the store is untouched. -/
theorem C5_cross_owner_write_not_found_witness :
    recipeDestroy demoStore 1 2 = (.notFound, demoStore)
    ∧ recipeUpdateOp demoStore 1 2 { title := some "Hacked" }
        = (.notFound, demoStore)
    ∧ (recipeDestroy demoStore 1 2).1 ≠ .forbidden
    ∧ (recipeUpdateOp demoStore 1 2 { title := some "Hacked" }).1
        ≠ .forbidden :=
  C5_cross_owner_write_not_found demoStore 2 1 2 { title := some "Hacked" }
    (by decide) ⟨otherRecipe, by decide, rfl, rfl⟩ (by decide)

/-- C7: an update whose payload carries a `user` key still succeeds, leaves
the recipe's owner unchanged, and behaves exactly as if the key were absent
(`user` is not a declared serializer field, so deserialization drops it from
the effective update set). -/
theorem C7_owner_field_ignored (s : Store) (u pk : Nat) (p : RecipePayload)
    (r : RecipeRow) (hget : recipeGetObject s u pk = some r) :
    (∃ r1, (recipeUpdateOp s u pk p).1 = .ok r1 ∧ r1.user = r.user)
    ∧ recipeUpdateOp s u pk p = recipeUpdateOp s u pk { p with user := none }
    ∧ validateDetail p = validateDetail { p with user := none } := by
  refine ⟨⟨(recipeSerializerUpdate s u r (validateDetail p)).1, ?_, ?_⟩,
    rfl, rfl⟩
  · unfold recipeUpdateOp; rw [hget]
  · exact recipeSerializerUpdate_fst_user s u r (validateDetail p)

/-- Witness for C7: patching recipe 1 with a payload trying to hand the
recipe to user 2 succeeds and keeps owner 1. -/
theorem C7_owner_field_ignored_witness :
    (∃ r1, (recipeUpdateOp demoStore 1 1
        { user := some 2, title := some "New title" }).1 = .ok r1
      ∧ r1.user = demoRecipe.user)
    ∧ recipeUpdateOp demoStore 1 1 { user := some 2, title := some "New title" }
        = recipeUpdateOp demoStore 1 1
            { ({ user := some 2, title := some "New title" } : RecipePayload)
                with user := none }
    ∧ validateDetail { user := some 2, title := some "New title" }
        = validateDetail
            { ({ user := some 2, title := some "New title" } : RecipePayload)
                with user := none } :=
  C7_owner_field_ignored demoStore 1 1
    { user := some 2, title := some "New title" } demoRecipe (by decide)

/-- C8: the image endpoint, resolved on the caller's recipe: a valid image
in the single `image` field answers 200 with the stored reference location
and writes only that field of the row back; a non-image payload (or a
missing file) answers with a validation error and stores nothing; and no
other attribute of the recipe — title, tags, owner, … — is read or written,
keeping the operation apart from the general update path. -/
theorem C8_upload_image_contract (s : Store) (u pk : Nat) (r : RecipeRow)
    (f : FilePayload) (hget : recipeGetObject s u pk = some r) :
    (f.isImage = true →
      upload_image s u pk (some f)
        = (.ok (storedLocation pk f),
           saveRecipe s { r with image := some (storedLocation pk f) }))
    ∧ (f.isImage = false →
        upload_image s u pk (some f) = (.validationError, s))
    ∧ upload_image s u pk none = (.validationError, s) := by
  refine ⟨fun h => ?_, fun h => ?_, ?_⟩
  · unfold upload_image
    rw [hget]
    simp [recipeImageSerializerIsValid, h]
  · unfold upload_image
    rw [hget]
    simp [recipeImageSerializerIsValid, h]
  · unfold upload_image
    rw [hget]
    rfl

/-- Witness for C8 on recipe 1 of the concrete store with a real image
file. -/
theorem C8_upload_image_contract_witness :
    ((⟨"pic.jpg", true⟩ : FilePayload).isImage = true →
      upload_image demoStore 1 1 (some ⟨"pic.jpg", true⟩)
        = (.ok (storedLocation 1 ⟨"pic.jpg", true⟩),
           saveRecipe demoStore
             { demoRecipe with
                 image := some (storedLocation 1 ⟨"pic.jpg", true⟩) }))
    ∧ ((⟨"pic.jpg", true⟩ : FilePayload).isImage = false →
        upload_image demoStore 1 1 (some ⟨"pic.jpg", true⟩)
          = (.validationError, demoStore))
    ∧ upload_image demoStore 1 1 none = (.validationError, demoStore) :=
  C8_upload_image_contract demoStore 1 1 demoRecipe ⟨"pic.jpg", true⟩
    (by decide)

theorem getOrCreateTag_recipes (s : Store) (u : Nat) (n : String) :
    (getOrCreateTag s u n).2.recipes = s.recipes := by
  unfold getOrCreateTag
  cases s.tags.find? (fun t => t.user == u && t.name == n) <;> rfl

theorem get_or_create_tags_recipes (s : Store) (u : Nat)
    (td : List NameDescriptor) (rel : List Nat) :
    (get_or_create_tags s u td rel).2.recipes = s.recipes := by
  induction td generalizing s rel with
  | nil => rfl
  | cons d rest ih =>
    unfold get_or_create_tags
    rw [ih, getOrCreateTag_recipes]

theorem mem_saveRecipe_tagsUpdate (s : Store) (base : RecipeRow)
    (rel : List Nat) (hb : base ∈ s.recipes) :
    ({ base with tags := rel } : RecipeRow)
      ∈ (saveRecipe s { base with tags := rel }).recipes := by
  unfold saveRecipe
  simp only [List.mem_map]
  exact ⟨base, hb, by simp⟩

/-- C10: a created recipe is owned by the authenticated caller and carries
the store-issued fresh id; the created row really is in the resulting
store; and a payload smuggling `user` or `id` values produces exactly the
same result as one without them (both are dropped at deserialization: `id`
is read-only and `user` is not a serializer field — the owner comes from
`perform_create`'s `serializer.save(user=self.request.user)`). -/
theorem C10_create_stamps_owner (s : Store) (u : Nat) (p : RecipePayload) :
    (performCreate s u p).1.user = u
    ∧ (performCreate s u p).1.id = s.nextRecipeId
    ∧ (performCreate s u p).1 ∈ (performCreate s u p).2.recipes
    ∧ ∀ uid rid : Nat,
        performCreate s u { p with user := some uid, id := some rid }
          = performCreate s u p := by
  refine ⟨rfl, rfl, ?_, fun uid rid => rfl⟩
  unfold performCreate recipeSerializerCreate
  apply mem_saveRecipe_tagsUpdate
  rw [get_or_create_tags_recipes]
  exact List.mem_append_right _ (List.mem_singleton_self _)
